import Mathlib

/-!
Verification development for the crypto-wallet canister (Azle/TypeScript).

The repository contains near-duplicate draft implementations of one module.
The primary embedding below (`namespace V2`) is the improved draft in
`src/src/dfinity_js_backend/src/index.ts` (the second module in that file:
`create_user`, `deposit_funds`, `send_transaction`, `redeem_points`,
`get_transaction_history` with pagination, and the typed `Message` variant
with `ValidationError` / `DuplicateEmail` / `InsufficientFunds` /
`InsufficientPoints` / `SystemError`).  The draft in `src/unnamed/part_000`
is embedded as `namespace P0` where its behaviour differs (it is the only
draft that rejects self-transfers).

Modelling conventions:
- `StableBTreeMap` is modelled as an association list with `mapGet`,
  `mapInsert` (overwriting insert, as `insert` in Azle) and `mapValues`
  (as `.values()`).
- JavaScript `bigint` balance/points arithmetic is arbitrary-precision and
  signed, so those fields are `Int`; Candid `nat64` payload arguments are
  decoded non-negative, so payload fields are `Nat`.
- `uuidv4()` and the current timestamp are injected as explicit parameters
  (`nid`, `rand`, `ts`), since they are external services.
- Each mutating operation returns the post-state paired with the returned
  `Result` value, mirroring the sequence of `insert` calls in the source.
-/

/-- Association-list model of a `StableBTreeMap`: `get`. -/
def mapGet {α : Type} (m : List (String × α)) (k : String) : Option α :=
  match m with
  | [] => none
  | (k', v) :: rest => if k' = k then some v else mapGet rest k

/-- Association-list model of a `StableBTreeMap`: overwriting `insert`. -/
def mapInsert {α : Type} (m : List (String × α)) (k : String) (v : α) :
    List (String × α) :=
  match m with
  | [] => [(k, v)]
  | (k', v') :: rest =>
    if k' = k then (k, v) :: rest else (k', v') :: mapInsert rest k v

/-- Association-list model of a `StableBTreeMap`: `.values()`. -/
def mapValues {α : Type} (m : List (String × α)) : List α :=
  m.map Prod.snd

deriving instance DecidableEq for Except

namespace V2

/-- `User` record of the improved draft in `index.ts`. -/
structure User where
  id : String
  first_name : String
  last_name : String
  username : String
  email : String
  phone_number : String
  balance : Int
  points : Int
  created_at : Nat
  updated_at : Nat
deriving DecidableEq, Repr

/-- `Transaction` record of the improved draft in `index.ts`.
`points_earned` is declared `nat64` in the source but `redeem_points`
assigns it the negative bigint `-payload.points`, so its JavaScript value
space is modelled as `Int`. -/
structure Transaction where
  id : String
  from_user_id : String
  to_user_id : String
  amount : Nat
  transaction_type : String
  status : String
  points_earned : Int
  created_at : Nat
deriving DecidableEq, Repr

/-- `Message` variant of the improved draft. -/
inductive Message where
  | Success (msg : String)
  | ValidationError (msg : String)
  | NotFound (msg : String)
  | InsufficientFunds (msg : String)
  | InsufficientPoints (msg : String)
  | DuplicateEmail (msg : String)
  | SystemError (msg : String)
deriving DecidableEq, Repr

structure UserPayload where
  first_name : String
  last_name : String
  email : String
  phone_number : String
deriving DecidableEq, Repr

structure TransactionPayload where
  from_user_id : String
  to_user_id : String
  amount : Nat
deriving DecidableEq, Repr

structure PointsPayload where
  user_id : String
  points : Nat
deriving DecidableEq, Repr

structure DepositPayload where
  user_id : String
  amount : Nat
deriving DecidableEq, Repr

/-- The two stores (`userStorage`, `transactionStorage`). -/
structure State where
  users : List (String × User)
  txs : List (String × Transaction)
deriving DecidableEq, Repr

def POINTS_CONVERSION_RATE : Nat := 10

def MIN_TRANSACTION_AMOUNT : Nat := 1

/-- JavaScript `String.prototype.trim`: strip whitespace from both ends,
modelled over the character list so that it evaluates by reduction. -/
def jsTrim (s : String) : String :=
  ⟨((s.toList.dropWhile Char.isWhitespace).reverse.dropWhile
      Char.isWhitespace).reverse⟩

/-- JavaScript `String.prototype.toLowerCase` (ASCII range), modelled over
the character list so that it evaluates by reduction. -/
def jsToLower (s : String) : String :=
  ⟨s.toList.map Char.toLower⟩

/-- `validateEmail`: the regex `^[^\s@]+@[^\s@]+\.[^\s@]+$` matches a string
iff it has no whitespace, exactly one at-sign with a non-empty part before
it, and a dot strictly inside the part after the at-sign. -/
def validateEmail (email : String) : Bool :=
  let cs := email.toList
  cs.all (fun c => !c.isWhitespace) &&
    cs.count '@' == 1 &&
    (match cs.splitOn '@' with
     | [a, b] => !a.isEmpty && ((b.drop 1).dropLast.contains '.')
     | _ => false)

/-- `validatePhoneNumber`: the regex `^\+?[1-9]\d{1,14}$`. -/
def validatePhoneNumber (phone : String) : Bool :=
  let cs := phone.toList
  let ds := if cs.head? = some '+' then cs.tail else cs
  match ds with
  | [] => false
  | d :: rest =>
    ('1' ≤ d && d ≤ '9') && rest.all Char.isDigit &&
      decide (1 ≤ rest.length) && decide (rest.length ≤ 14)

/-- `.toLowerCase().replace(/[^a-z0-9]/g, '')` used by `generateUsername`. -/
def sanitizeNamePart (s : String) : String :=
  ⟨((jsToLower s).toList.filter (fun c =>
      ('a' ≤ c && c ≤ 'z') || ('0' ≤ c && c ≤ '9')))⟩

/-- `generateUsername`; `Math.floor(Math.random() * 1000)` is injected as
`rand % 1000`. -/
def generateUsername (firstName lastName : String) (rand : Nat) : String :=
  sanitizeNamePart firstName ++
    String.mk ((sanitizeNamePart lastName).toList.take 10) ++
    toString (rand % 1000)

/-- `create_user` of the improved draft. -/
def create_user (s : State) (payload : UserPayload) (nid : String)
    (rand ts : Nat) : State × Except Message User :=
  if jsTrim payload.first_name = "" ∨ jsTrim payload.last_name = "" then
    (s, Except.error (Message.ValidationError
      "First name and last name are required."))
  else if !validateEmail payload.email then
    (s, Except.error (Message.ValidationError "Invalid email address format."))
  else if !validatePhoneNumber payload.phone_number then
    (s, Except.error (Message.ValidationError "Invalid phone number format."))
  else
    match (mapValues s.users).find? (fun u => u.email == payload.email) with
    | some _ => (s, Except.error (Message.DuplicateEmail "Email already exists."))
    | none =>
      let user : User :=
        { id := nid
          first_name := jsTrim payload.first_name
          last_name := jsTrim payload.last_name
          username := generateUsername payload.first_name payload.last_name rand
          email := jsToLower payload.email
          phone_number := payload.phone_number
          balance := 0
          points := 0
          created_at := ts
          updated_at := ts }
      ({ s with users := mapInsert s.users user.id user }, Except.ok user)

/-- `deposit_funds` of the improved draft. -/
def deposit_funds (s : State) (payload : DepositPayload) (nid : String)
    (ts : Nat) : State × Except Message Transaction :=
  if payload.amount < MIN_TRANSACTION_AMOUNT then
    (s, Except.error (Message.ValidationError "Amount must be greater than 0."))
  else
    match mapGet s.users payload.user_id with
    | none => (s, Except.error (Message.NotFound
        ("User with id " ++ payload.user_id ++ " not found.")))
    | some user =>
      let transaction : Transaction :=
        { id := nid
          from_user_id := "SYSTEM"
          to_user_id := payload.user_id
          amount := payload.amount
          transaction_type := "DEPOSIT"
          status := "COMPLETED"
          points_earned := 0
          created_at := ts }
      let user' : User :=
        { user with balance := user.balance + (payload.amount : Int)
                    updated_at := ts }
      ({ users := mapInsert s.users user'.id user'
         txs := mapInsert s.txs transaction.id transaction },
       Except.ok transaction)

/-- `send_transaction` of the improved draft.  Note: `fromUser` and `toUser`
are independent deserialized copies; for a self-transfer the second `insert`
overwrites the first. -/
def send_transaction (s : State) (payload : TransactionPayload) (nid : String)
    (ts : Nat) : State × Except Message Transaction :=
  if payload.amount < MIN_TRANSACTION_AMOUNT then
    (s, Except.error (Message.ValidationError "Amount must be greater than 0."))
  else
    match mapGet s.users payload.from_user_id,
          mapGet s.users payload.to_user_id with
    | none, _ => (s, Except.error (Message.NotFound "Sender not found."))
    | some _, none => (s, Except.error (Message.NotFound "Recipient not found."))
    | some fromUser, some toUser =>
      if fromUser.balance < (payload.amount : Int) then
        (s, Except.error (Message.InsufficientFunds "Insufficient balance."))
      else
        let pointsEarned : Nat := payload.amount / POINTS_CONVERSION_RATE
        let transaction : Transaction :=
          { id := nid
            from_user_id := payload.from_user_id
            to_user_id := payload.to_user_id
            amount := payload.amount
            transaction_type := "TRANSFER"
            status := "COMPLETED"
            points_earned := (pointsEarned : Int)
            created_at := ts }
        let fromUser' : User :=
          { fromUser with balance := fromUser.balance - (payload.amount : Int)
                          points := fromUser.points + (pointsEarned : Int)
                          updated_at := ts }
        let toUser' : User :=
          { toUser with balance := toUser.balance + (payload.amount : Int)
                        updated_at := ts }
        ({ users := mapInsert (mapInsert s.users fromUser'.id fromUser')
              toUser'.id toUser'
           txs := mapInsert s.txs transaction.id transaction },
         Except.ok transaction)

/-- `redeem_points` of the improved draft. -/
def redeem_points (s : State) (payload : PointsPayload) (nid : String)
    (ts : Nat) : State × Except Message Transaction :=
  if payload.points = 0 then
    (s, Except.error (Message.ValidationError "Points must be greater than 0."))
  else
    match mapGet s.users payload.user_id with
    | none => (s, Except.error (Message.NotFound "User not found."))
    | some user =>
      if user.points < (payload.points : Int) then
        (s, Except.error (Message.InsufficientPoints
          "Insufficient points balance."))
      else
        let transaction : Transaction :=
          { id := nid
            from_user_id := payload.user_id
            to_user_id := "SYSTEM"
            amount := 0
            transaction_type := "POINTS_REDEMPTION"
            status := "COMPLETED"
            points_earned := -(payload.points : Int)
            created_at := ts }
        let user' : User :=
          { user with points := user.points - (payload.points : Int)
                      updated_at := ts }
        ({ users := mapInsert s.users user'.id user'
           txs := mapInsert s.txs transaction.id transaction },
         Except.ok transaction)

/-- Filter predicate of `get_transaction_history`. -/
def txOfUser (user_id : String) (tx : Transaction) : Bool :=
  tx.from_user_id == user_id || tx.to_user_id == user_id

/-- Comparator `(a, b) => Number(b.created_at - a.created_at)`: newest
first. -/
def createdDesc (a b : Transaction) : Prop :=
  b.created_at ≤ a.created_at

instance : DecidableRel createdDesc := fun a b =>
  inferInstanceAs (Decidable (b.created_at ≤ a.created_at))

instance : IsTotal Transaction createdDesc :=
  ⟨fun a b => Nat.le_total b.created_at a.created_at⟩

instance : IsTrans Transaction createdDesc :=
  ⟨fun _ _ _ hab hbc => Nat.le_trans hbc hab⟩

/-- `get_transaction_history` of the improved draft: filter, stable sort by
`created_at` descending, then `slice(skip, skip + limit)`; `NotFound` is
raised when the resulting (post-pagination) slice is empty. -/
def get_transaction_history (s : State) (user_id : String) (skip limit : Nat) :
    Except Message (List Transaction) :=
  let transactions :=
    ((List.insertionSort createdDesc
        ((mapValues s.txs).filter (txOfUser user_id))).drop skip).take limit
  if transactions.length = 0 then
    Except.error (Message.NotFound "No transactions found.")
  else
    Except.ok transactions

/-- One call to a mutating entry point of the improved draft, with its
injected fresh id, randomness and timestamp. -/
inductive Op where
  | create (payload : UserPayload) (nid : String) (rand ts : Nat)
  | deposit (payload : DepositPayload) (nid : String) (ts : Nat)
  | send (payload : TransactionPayload) (nid : String) (ts : Nat)
  | redeem (payload : PointsPayload) (nid : String) (ts : Nat)

/-- The state reached after one mutating operation (result value
discarded). -/
def applyOp (s : State) : Op → State
  | Op.create payload nid rand ts => (create_user s payload nid rand ts).1
  | Op.deposit payload nid ts => (deposit_funds s payload nid ts).1
  | Op.send payload nid ts => (send_transaction s payload nid ts).1
  | Op.redeem payload nid ts => (redeem_points s payload nid ts).1

/-- Both stores empty, as on a fresh deployment. -/
def initState : State := { users := [], txs := [] }

/-- The state after a sequence of operations from the empty stores. -/
def runOps (ops : List Op) : State := List.foldl applyOp initState ops

/-- Every stored user has non-negative balance and points. -/
def usersNonneg (m : List (String × User)) : Prop :=
  ∀ p ∈ m, 0 ≤ p.2.balance ∧ 0 ≤ p.2.points

/-- Every account-store key maps to a user whose `id` field equals the
key. -/
def usersConsistent (m : List (String × User)) : Prop :=
  ∀ p ∈ m, p.2.id = p.1

/-- Every ledger-store key maps to a transaction whose `id` field equals
the key. -/
def txsConsistent (m : List (String × Transaction)) : Prop :=
  ∀ p ∈ m, p.2.id = p.1

instance (m : List (String × User)) : Decidable (usersNonneg m) :=
  inferInstanceAs (Decidable (∀ p ∈ m, 0 ≤ p.2.balance ∧ 0 ≤ p.2.points))

instance (m : List (String × User)) : Decidable (usersConsistent m) :=
  inferInstanceAs (Decidable (∀ p ∈ m, p.2.id = p.1))

instance (m : List (String × Transaction)) : Decidable (txsConsistent m) :=
  inferInstanceAs (Decidable (∀ p ∈ m, p.2.id = p.1))

/-- The filter-sort-paginate pipeline of `get_transaction_history`: the
page of transactions it computes before the emptiness test. -/
def historyWindow (s : State) (user_id : String) (skip limit : Nat) :
    List Transaction :=
  ((List.insertionSort createdDesc
      ((mapValues s.txs).filter (txOfUser user_id))).drop skip).take limit

/-- Sample user for concrete evaluations. -/
def alice : User :=
  { id := "alice", first_name := "Alice", last_name := "Smith",
    username := "alicesmith42", email := "alice@example.com",
    phone_number := "+12025550123", balance := 100, points := 7,
    created_at := 1, updated_at := 1 }

/-- Sample user for concrete evaluations. -/
def bob : User :=
  { id := "bob", first_name := "Bob", last_name := "Jones",
    username := "bobjones7", email := "bob@example.com",
    phone_number := "+12025550124", balance := 30, points := 2,
    created_at := 1, updated_at := 1 }

/-- Sample two-user state. -/
def demoState : State := { users := [("alice", alice), ("bob", bob)], txs := [] }

/-- Sample user with balance 10, used for the self-transfer evaluation. -/
def carol : User :=
  { id := "carol", first_name := "Carol", last_name := "King",
    username := "carolking3", email := "carol@example.com",
    phone_number := "+12025550125", balance := 10, points := 0,
    created_at := 1, updated_at := 1 }

/-- Single-user state holding `carol`. -/
def selfState : State := { users := [("carol", carol)], txs := [] }

/-- Sample user with balance 50, used for a second self-transfer
evaluation. -/
def dave : User :=
  { id := "dave", first_name := "Dave", last_name := "Hall",
    username := "davehall9", email := "dave@example.com",
    phone_number := "+12025550126", balance := 50, points := 0,
    created_at := 1, updated_at := 1 }

/-- Single-user state holding `dave`. -/
def daveState : State := { users := [("dave", dave)], txs := [] }

/-- Sample user whose balance is the largest `nat64` value. -/
def maxUser : User :=
  { id := "max", first_name := "Max", last_name := "Late",
    username := "maxlate1", email := "max@example.com",
    phone_number := "+12025550127", balance := 18446744073709551615,
    points := 0, created_at := 1, updated_at := 1 }

/-- Single-user state holding `maxUser`. -/
def maxState : State := { users := [("max", maxUser)], txs := [] }

/-- Sample ledger transaction between users `u` and `v`. -/
def hTx : Transaction :=
  { id := "h1", from_user_id := "u", to_user_id := "v", amount := 5,
    transaction_type := "TRANSFER", status := "COMPLETED",
    points_earned := 0, created_at := 3 }

/-- State whose ledger holds exactly `hTx`. -/
def histState : State := { users := [], txs := [("h1", hTx)] }

end V2

namespace P0

/-- `User` record of the draft in `src/unnamed/part_000` (`created_at` is a
string there). -/
structure User where
  id : String
  first_name : String
  last_name : String
  username : String
  email : String
  phone_number : String
  balance : Int
  points : Int
  created_at : String
deriving DecidableEq, Repr

/-- `Transaction` record of the `part_000` draft. -/
structure Transaction where
  id : String
  from_user_id : String
  to_user_id : String
  amount : Nat
  created_at : String
deriving DecidableEq, Repr

/-- `TransactionResponse` record of the `part_000` draft. -/
structure TransactionResponse where
  transaction : Transaction
  new_balance : Int
  points_earned : Nat
  message : String
deriving DecidableEq, Repr

/-- `Message` variant of the `part_000` draft. -/
inductive Message where
  | Success (msg : String)
  | Error (msg : String)
  | NotFound (msg : String)
  | InvalidPayload (msg : String)
  | Unauthorized (msg : String)
deriving DecidableEq, Repr

structure TransactionPayload where
  from_user_id : String
  to_user_id : String
  amount : Nat
deriving DecidableEq, Repr

structure State where
  users : List (String × User)
  txs : List (String × Transaction)
deriving DecidableEq, Repr

/-- `send_transaction` of the `part_000` draft: the only draft that rejects
self-transfers.  The success-message template literal's line breaks and
indentation are collapsed to single spaces here. -/
def send_transaction (s : State) (payload : TransactionPayload) (nid : String)
    (ts : Nat) : State × Except Message TransactionResponse :=
  if payload.amount = 0 then
    (s, Except.error (Message.InvalidPayload "Amount must be greater than 0."))
  else
    match mapGet s.users payload.from_user_id,
          mapGet s.users payload.to_user_id with
    | none, _ => (s, Except.error (Message.NotFound "Sender not found."))
    | some _, none => (s, Except.error (Message.NotFound "Recipient not found."))
    | some from_user, some to_user =>
      if payload.from_user_id = payload.to_user_id then
        (s, Except.error (Message.InvalidPayload
          "Sender and recipient cannot be the same."))
      else if from_user.balance < (payload.amount : Int) then
        (s, Except.error (Message.Error "Insufficient balance."))
      else
        let points : Nat := payload.amount / 10
        let from_user' : User :=
          { from_user with balance := from_user.balance - (payload.amount : Int)
                           points := from_user.points + (points : Int) }
        let to_user' : User :=
          { to_user with balance := to_user.balance + (payload.amount : Int) }
        let transaction : Transaction :=
          { id := nid
            from_user_id := payload.from_user_id
            to_user_id := payload.to_user_id
            amount := payload.amount
            created_at := toString ts }
        ({ users := mapInsert (mapInsert s.users from_user'.id from_user')
              to_user'.id to_user'
           txs := mapInsert s.txs nid transaction },
         Except.ok
           { transaction := transaction
             new_balance := from_user'.balance
             points_earned := points
             message := "Successfully transferred " ++ toString payload.amount
               ++ " units. New balance: " ++ toString from_user'.balance
               ++ " units. Points earned: " ++ toString points })

/-- Sample user of the part_000 draft. -/
def erin : User :=
  { id := "erin", first_name := "Erin", last_name := "Low",
    username := "erinlow", email := "erin@example.com",
    phone_number := "+12025550128", balance := 40, points := 0,
    created_at := "1" }

/-- Single-user state of the part_000 draft holding `erin`. -/
def p0State : State := { users := [("erin", erin)], txs := [] }

end P0

theorem mapGet_mapInsert_self {α : Type} (m : List (String × α)) (k : String) (v : α) :
    mapGet (mapInsert m k v) k = some v := by
  induction m with
  | nil => simp [mapInsert, mapGet]
  | cons p rest ih =>
    obtain ⟨pk, pv⟩ := p
    by_cases h : pk = k
    · simp [mapInsert, mapGet, h]
    · simp [mapInsert, mapGet, h, ih]

theorem mapGet_mapInsert_ne {α : Type} (m : List (String × α)) (k k' : String) (v : α)
    (h : k' ≠ k) : mapGet (mapInsert m k v) k' = mapGet m k' := by
  have hne : ¬ k = k' := fun hh => h hh.symm
  induction m with
  | nil => simp [mapInsert, mapGet, hne]
  | cons p rest ih =>
    obtain ⟨pk, pv⟩ := p
    by_cases hk : pk = k
    · subst hk
      simp [mapInsert, mapGet, hne]
    · simp [mapInsert, mapGet, hk, ih]

theorem length_mapInsert_of_mapGet_none {α : Type} (m : List (String × α))
    (k : String) (v : α) (h : mapGet m k = none) :
    (mapInsert m k v).length = m.length + 1 := by
  induction m with
  | nil => simp [mapInsert]
  | cons p rest ih =>
    obtain ⟨pk, pv⟩ := p
    by_cases hk : pk = k
    · simp [mapGet, hk] at h
    · simp [mapGet, hk] at h
      simp [mapInsert, hk, ih h]

/-- Insert preserves a property that holds of every entry, provided it
holds of the inserted entry. -/
theorem forall_entries_mapInsert {α : Type} {P : String × α → Prop}
    {m : List (String × α)} {k : String} {v : α}
    (hm : ∀ p ∈ m, P p) (hv : P (k, v)) : ∀ p ∈ mapInsert m k v, P p := by
  induction m with
  | nil =>
    intro p hp
    have h : p = (k, v) := by simpa [mapInsert] using hp
    exact h ▸ hv
  | cons q rest ih =>
    obtain ⟨qk, qv⟩ := q
    intro p hp
    by_cases hk : qk = k
    · rw [show mapInsert ((qk, qv) :: rest) k v = (k, v) :: rest by
        simp [mapInsert, hk]] at hp
      rcases List.mem_cons.mp hp with h | h
      · exact h ▸ hv
      · exact hm p (List.mem_cons_of_mem _ h)
    · rw [show mapInsert ((qk, qv) :: rest) k v = (qk, qv) :: mapInsert rest k v by
        simp [mapInsert, hk]] at hp
      rcases List.mem_cons.mp hp with h | h
      · exact h ▸ hm (qk, qv) (List.mem_cons_self _ _)
      · exact ih (fun q hq => hm q (List.mem_cons_of_mem _ hq)) p h

/-- A successful lookup yields an entry of the store. -/
theorem pred_of_mapGet {α : Type} {P : String × α → Prop}
    {m : List (String × α)} {k : String} {v : α}
    (hm : ∀ p ∈ m, P p) (hg : mapGet m k = some v) : P (k, v) := by
  induction m with
  | nil => simp [mapGet] at hg
  | cons q rest ih =>
    obtain ⟨qk, qv⟩ := q
    by_cases hk : qk = k
    · rw [show mapGet ((qk, qv) :: rest) k = some qv by simp [mapGet, hk]] at hg
      have h : qv = v := by simpa using hg
      have h2 := hm (qk, qv) (List.mem_cons_self _ _)
      rw [hk, h] at h2
      exact h2
    · rw [show mapGet ((qk, qv) :: rest) k = mapGet rest k by
        simp [mapGet, hk]] at hg
      exact ih (fun q hq => hm q (List.mem_cons_of_mem _ hq)) hg
namespace V2

/-! Branch equations for the V2 operations: one equation per control-flow
path of the source, used by all claim proofs. -/

theorem create_user_names_empty (s : State) (payload : UserPayload)
    (nid : String) (rand ts : Nat)
    (h : jsTrim payload.first_name = "" ∨ jsTrim payload.last_name = "") :
    create_user s payload nid rand ts =
      (s, Except.error (Message.ValidationError
        "First name and last name are required.")) := by
  simp [create_user, h]

theorem create_user_bad_email (s : State) (payload : UserPayload)
    (nid : String) (rand ts : Nat)
    (h0 : ¬ (jsTrim payload.first_name = "" ∨ jsTrim payload.last_name = ""))
    (h1 : validateEmail payload.email = false) :
    create_user s payload nid rand ts =
      (s, Except.error (Message.ValidationError
        "Invalid email address format.")) := by
  simp [create_user, h0, h1]

theorem create_user_bad_phone (s : State) (payload : UserPayload)
    (nid : String) (rand ts : Nat)
    (h0 : ¬ (jsTrim payload.first_name = "" ∨ jsTrim payload.last_name = ""))
    (h1 : validateEmail payload.email = true)
    (h2 : validatePhoneNumber payload.phone_number = false) :
    create_user s payload nid rand ts =
      (s, Except.error (Message.ValidationError
        "Invalid phone number format.")) := by
  simp [create_user, h0, h1, h2]

theorem create_user_duplicate (s : State) (payload : UserPayload)
    (nid : String) (rand ts : Nat) (w : User)
    (h0 : ¬ (jsTrim payload.first_name = "" ∨ jsTrim payload.last_name = ""))
    (h1 : validateEmail payload.email = true)
    (h2 : validatePhoneNumber payload.phone_number = true)
    (h3 : (mapValues s.users).find? (fun u => u.email == payload.email) =
      some w) :
    create_user s payload nid rand ts =
      (s, Except.error (Message.DuplicateEmail "Email already exists.")) := by
  simp [create_user, h0, h1, h2, h3]

theorem create_user_ok (s : State) (payload : UserPayload)
    (nid : String) (rand ts : Nat)
    (h0 : ¬ (jsTrim payload.first_name = "" ∨ jsTrim payload.last_name = ""))
    (h1 : validateEmail payload.email = true)
    (h2 : validatePhoneNumber payload.phone_number = true)
    (h3 : (mapValues s.users).find? (fun u => u.email == payload.email) =
      none) :
    create_user s payload nid rand ts =
      ({ s with users := mapInsert s.users nid
                  { id := nid
                    first_name := jsTrim payload.first_name
                    last_name := jsTrim payload.last_name
                    username := generateUsername payload.first_name
                      payload.last_name rand
                    email := jsToLower payload.email
                    phone_number := payload.phone_number
                    balance := 0
                    points := 0
                    created_at := ts
                    updated_at := ts } },
       Except.ok
          { id := nid
            first_name := jsTrim payload.first_name
            last_name := jsTrim payload.last_name
            username := generateUsername payload.first_name payload.last_name rand
            email := jsToLower payload.email
            phone_number := payload.phone_number
            balance := 0
            points := 0
            created_at := ts
            updated_at := ts }) := by
  simp [create_user, h0, h1, h2, h3]

theorem deposit_funds_small (s : State) (payload : DepositPayload)
    (nid : String) (ts : Nat) (h : payload.amount < MIN_TRANSACTION_AMOUNT) :
    deposit_funds s payload nid ts =
      (s, Except.error (Message.ValidationError
        "Amount must be greater than 0.")) := by
  simp [deposit_funds, h]

theorem deposit_funds_notFound (s : State) (payload : DepositPayload)
    (nid : String) (ts : Nat) (h0 : ¬ payload.amount < MIN_TRANSACTION_AMOUNT)
    (h1 : mapGet s.users payload.user_id = none) :
    deposit_funds s payload nid ts =
      (s, Except.error (Message.NotFound
        ("User with id " ++ payload.user_id ++ " not found."))) := by
  simp [deposit_funds, h0, h1]

theorem deposit_funds_ok (s : State) (payload : DepositPayload)
    (nid : String) (ts : Nat) (user : User)
    (h0 : ¬ payload.amount < MIN_TRANSACTION_AMOUNT)
    (h1 : mapGet s.users payload.user_id = some user) :
    deposit_funds s payload nid ts =
      ({ users := mapInsert s.users user.id
          { user with balance := user.balance + (payload.amount : Int)
                      updated_at := ts }
         txs := mapInsert s.txs nid
          { id := nid
            from_user_id := "SYSTEM"
            to_user_id := payload.user_id
            amount := payload.amount
            transaction_type := "DEPOSIT"
            status := "COMPLETED"
            points_earned := 0
            created_at := ts } },
       Except.ok
          { id := nid
            from_user_id := "SYSTEM"
            to_user_id := payload.user_id
            amount := payload.amount
            transaction_type := "DEPOSIT"
            status := "COMPLETED"
            points_earned := 0
            created_at := ts }) := by
  simp [deposit_funds, h0, h1]

theorem send_transaction_small (s : State) (payload : TransactionPayload)
    (nid : String) (ts : Nat) (h : payload.amount < MIN_TRANSACTION_AMOUNT) :
    send_transaction s payload nid ts =
      (s, Except.error (Message.ValidationError
        "Amount must be greater than 0.")) := by
  simp [send_transaction, h]

theorem send_transaction_noSender (s : State) (payload : TransactionPayload)
    (nid : String) (ts : Nat) (h0 : ¬ payload.amount < MIN_TRANSACTION_AMOUNT)
    (h1 : mapGet s.users payload.from_user_id = none) :
    send_transaction s payload nid ts =
      (s, Except.error (Message.NotFound "Sender not found.")) := by
  simp [send_transaction, h0, h1]

theorem send_transaction_noRecipient (s : State) (payload : TransactionPayload)
    (nid : String) (ts : Nat) (fromUser : User)
    (h0 : ¬ payload.amount < MIN_TRANSACTION_AMOUNT)
    (h1 : mapGet s.users payload.from_user_id = some fromUser)
    (h2 : mapGet s.users payload.to_user_id = none) :
    send_transaction s payload nid ts =
      (s, Except.error (Message.NotFound "Recipient not found.")) := by
  simp [send_transaction, h0, h1, h2]

theorem send_transaction_insufficient (s : State) (payload : TransactionPayload)
    (nid : String) (ts : Nat) (fromUser toUser : User)
    (h0 : ¬ payload.amount < MIN_TRANSACTION_AMOUNT)
    (h1 : mapGet s.users payload.from_user_id = some fromUser)
    (h2 : mapGet s.users payload.to_user_id = some toUser)
    (h3 : fromUser.balance < (payload.amount : Int)) :
    send_transaction s payload nid ts =
      (s, Except.error (Message.InsufficientFunds "Insufficient balance.")) := by
  simp [send_transaction, h0, h1, h2, h3]

theorem send_transaction_ok (s : State) (payload : TransactionPayload)
    (nid : String) (ts : Nat) (fromUser toUser : User)
    (h0 : ¬ payload.amount < MIN_TRANSACTION_AMOUNT)
    (h1 : mapGet s.users payload.from_user_id = some fromUser)
    (h2 : mapGet s.users payload.to_user_id = some toUser)
    (h3 : ¬ fromUser.balance < (payload.amount : Int)) :
    send_transaction s payload nid ts =
      ({ users := mapInsert (mapInsert s.users fromUser.id
            { fromUser with
                balance := fromUser.balance - (payload.amount : Int)
                points := fromUser.points +
                  ((payload.amount / POINTS_CONVERSION_RATE : Nat) : Int)
                updated_at := ts })
            toUser.id
            { toUser with balance := toUser.balance + (payload.amount : Int)
                          updated_at := ts }
         txs := mapInsert s.txs nid
          { id := nid
            from_user_id := payload.from_user_id
            to_user_id := payload.to_user_id
            amount := payload.amount
            transaction_type := "TRANSFER"
            status := "COMPLETED"
            points_earned := ((payload.amount / POINTS_CONVERSION_RATE : Nat) : Int)
            created_at := ts } },
       Except.ok
          { id := nid
            from_user_id := payload.from_user_id
            to_user_id := payload.to_user_id
            amount := payload.amount
            transaction_type := "TRANSFER"
            status := "COMPLETED"
            points_earned := ((payload.amount / POINTS_CONVERSION_RATE : Nat) : Int)
            created_at := ts }) := by
  simp [send_transaction, h0, h1, h2, h3]

theorem redeem_points_zero (s : State) (payload : PointsPayload)
    (nid : String) (ts : Nat) (h : payload.points = 0) :
    redeem_points s payload nid ts =
      (s, Except.error (Message.ValidationError
        "Points must be greater than 0.")) := by
  simp [redeem_points, h]

theorem redeem_points_notFound (s : State) (payload : PointsPayload)
    (nid : String) (ts : Nat) (h0 : ¬ payload.points = 0)
    (h1 : mapGet s.users payload.user_id = none) :
    redeem_points s payload nid ts =
      (s, Except.error (Message.NotFound "User not found.")) := by
  simp [redeem_points, h0, h1]

theorem redeem_points_insufficient (s : State) (payload : PointsPayload)
    (nid : String) (ts : Nat) (user : User) (h0 : ¬ payload.points = 0)
    (h1 : mapGet s.users payload.user_id = some user)
    (h2 : user.points < (payload.points : Int)) :
    redeem_points s payload nid ts =
      (s, Except.error (Message.InsufficientPoints
        "Insufficient points balance.")) := by
  simp [redeem_points, h0, h1, h2]

theorem redeem_points_ok (s : State) (payload : PointsPayload)
    (nid : String) (ts : Nat) (user : User) (h0 : ¬ payload.points = 0)
    (h1 : mapGet s.users payload.user_id = some user)
    (h2 : ¬ user.points < (payload.points : Int)) :
    redeem_points s payload nid ts =
      ({ users := mapInsert s.users user.id
          { user with points := user.points - (payload.points : Int)
                      updated_at := ts }
         txs := mapInsert s.txs nid
          { id := nid
            from_user_id := payload.user_id
            to_user_id := "SYSTEM"
            amount := 0
            transaction_type := "POINTS_REDEMPTION"
            status := "COMPLETED"
            points_earned := -(payload.points : Int)
            created_at := ts } },
       Except.ok
          { id := nid
            from_user_id := payload.user_id
            to_user_id := "SYSTEM"
            amount := 0
            transaction_type := "POINTS_REDEMPTION"
            status := "COMPLETED"
            points_earned := -(payload.points : Int)
            created_at := ts }) := by
  simp [redeem_points, h0, h1, h2]

end V2

namespace V2

theorem usersNonneg_get {m : List (String × User)} {k : String} {u : User}
    (h : usersNonneg m) (hg : mapGet m k = some u) :
    0 ≤ u.balance ∧ 0 ≤ u.points :=
  pred_of_mapGet h hg

theorem usersNonneg_applyOp (s : State) (op : Op) (h : usersNonneg s.users) :
    usersNonneg (applyOp s op).users := by
  cases op with
  | create payload nid rand ts =>
    show usersNonneg (create_user s payload nid rand ts).1.users
    by_cases h0 : jsTrim payload.first_name = "" ∨ jsTrim payload.last_name = ""
    · rw [create_user_names_empty s payload nid rand ts h0]; exact h
    · cases h1 : validateEmail payload.email with
      | false => rw [create_user_bad_email s payload nid rand ts h0 h1]; exact h
      | true =>
        cases h2 : validatePhoneNumber payload.phone_number with
        | false => rw [create_user_bad_phone s payload nid rand ts h0 h1 h2]; exact h
        | true =>
          cases h3 : (mapValues s.users).find? (fun u => u.email == payload.email) with
          | some w =>
            rw [create_user_duplicate s payload nid rand ts w h0 h1 h2 h3]; exact h
          | none =>
            rw [create_user_ok s payload nid rand ts h0 h1 h2 h3]
            exact forall_entries_mapInsert h ⟨le_refl 0, le_refl 0⟩
  | deposit payload nid ts =>
    show usersNonneg (deposit_funds s payload nid ts).1.users
    by_cases h0 : payload.amount < MIN_TRANSACTION_AMOUNT
    · rw [deposit_funds_small s payload nid ts h0]; exact h
    · cases h1 : mapGet s.users payload.user_id with
      | none => rw [deposit_funds_notFound s payload nid ts h0 h1]; exact h
      | some user =>
        rw [deposit_funds_ok s payload nid ts user h0 h1]
        obtain ⟨hb, hp⟩ := usersNonneg_get h h1
        refine forall_entries_mapInsert h ?_
        show 0 ≤ user.balance + (payload.amount : Int) ∧ 0 ≤ user.points
        omega
  | send payload nid ts =>
    show usersNonneg (send_transaction s payload nid ts).1.users
    by_cases h0 : payload.amount < MIN_TRANSACTION_AMOUNT
    · rw [send_transaction_small s payload nid ts h0]; exact h
    · cases h1 : mapGet s.users payload.from_user_id with
      | none => rw [send_transaction_noSender s payload nid ts h0 h1]; exact h
      | some fromUser =>
        cases h2 : mapGet s.users payload.to_user_id with
        | none =>
          rw [send_transaction_noRecipient s payload nid ts fromUser h0 h1 h2]
          exact h
        | some toUser =>
          by_cases h3 : fromUser.balance < (payload.amount : Int)
          · rw [send_transaction_insufficient s payload nid ts fromUser toUser h0 h1 h2 h3]
            exact h
          · rw [send_transaction_ok s payload nid ts fromUser toUser h0 h1 h2 h3]
            obtain ⟨hfb, hfp⟩ := usersNonneg_get h h1
            obtain ⟨htb, htp⟩ := usersNonneg_get h h2
            refine forall_entries_mapInsert (forall_entries_mapInsert h ?_) ?_
            · show 0 ≤ fromUser.balance - (payload.amount : Int) ∧
                0 ≤ fromUser.points +
                  ((payload.amount / POINTS_CONVERSION_RATE : Nat) : Int)
              have hg : (0 : Int) ≤
                  ((payload.amount / POINTS_CONVERSION_RATE : Nat) : Int) :=
                Int.ofNat_nonneg _
              omega
            · show 0 ≤ toUser.balance + (payload.amount : Int) ∧ 0 ≤ toUser.points
              omega
  | redeem payload nid ts =>
    show usersNonneg (redeem_points s payload nid ts).1.users
    by_cases h0 : payload.points = 0
    · rw [redeem_points_zero s payload nid ts h0]; exact h
    · cases h1 : mapGet s.users payload.user_id with
      | none => rw [redeem_points_notFound s payload nid ts h0 h1]; exact h
      | some user =>
        by_cases h2 : user.points < (payload.points : Int)
        · rw [redeem_points_insufficient s payload nid ts user h0 h1 h2]; exact h
        · rw [redeem_points_ok s payload nid ts user h0 h1 h2]
          obtain ⟨hb, hp⟩ := usersNonneg_get h h1
          refine forall_entries_mapInsert h ?_
          show 0 ≤ user.balance ∧ 0 ≤ user.points - (payload.points : Int)
          omega

/-- C2: starting from empty stores, after any sequence of `create_user`,
`deposit_funds`, `send_transaction` and `redeem_points` calls, every User
record in the Account Store has `balance` and `points` non-negative: no
operation ever makes either field negative. -/
theorem balances_and_points_nonneg (ops : List Op) :
    usersNonneg (runOps ops).users := by
  have hgen : ∀ (l : List Op) (s : State), usersNonneg s.users →
      usersNonneg (List.foldl applyOp s l).users := by
    intro l
    induction l with
    | nil => intro s hs; exact hs
    | cons op rest ih =>
      intro s hs
      exact ih (applyOp s op) (usersNonneg_applyOp s op hs)
  refine hgen ops initState ?_
  intro p hp
  simp [initState] at hp

/-- C10: every mutating operation preserves key-consistency of both
stores: each Account Store key maps to a User whose `id` equals the key,
and each Ledger Store key maps to a Transaction whose `id` equals the
key. -/
theorem store_key_consistency (s : State) (op : Op)
    (hu : usersConsistent s.users) (ht : txsConsistent s.txs) :
    usersConsistent (applyOp s op).users ∧
      txsConsistent (applyOp s op).txs := by
  cases op with
  | create payload nid rand ts =>
    show usersConsistent (create_user s payload nid rand ts).1.users ∧
      txsConsistent (create_user s payload nid rand ts).1.txs
    by_cases h0 : jsTrim payload.first_name = "" ∨ jsTrim payload.last_name = ""
    · rw [create_user_names_empty s payload nid rand ts h0]; exact ⟨hu, ht⟩
    · cases h1 : validateEmail payload.email with
      | false =>
        rw [create_user_bad_email s payload nid rand ts h0 h1]; exact ⟨hu, ht⟩
      | true =>
        cases h2 : validatePhoneNumber payload.phone_number with
        | false =>
          rw [create_user_bad_phone s payload nid rand ts h0 h1 h2]
          exact ⟨hu, ht⟩
        | true =>
          cases h3 : (mapValues s.users).find?
              (fun u => u.email == payload.email) with
          | some w =>
            rw [create_user_duplicate s payload nid rand ts w h0 h1 h2 h3]
            exact ⟨hu, ht⟩
          | none =>
            rw [create_user_ok s payload nid rand ts h0 h1 h2 h3]
            exact ⟨forall_entries_mapInsert hu rfl, ht⟩
  | deposit payload nid ts =>
    show usersConsistent (deposit_funds s payload nid ts).1.users ∧
      txsConsistent (deposit_funds s payload nid ts).1.txs
    by_cases h0 : payload.amount < MIN_TRANSACTION_AMOUNT
    · rw [deposit_funds_small s payload nid ts h0]; exact ⟨hu, ht⟩
    · cases h1 : mapGet s.users payload.user_id with
      | none => rw [deposit_funds_notFound s payload nid ts h0 h1]; exact ⟨hu, ht⟩
      | some user =>
        rw [deposit_funds_ok s payload nid ts user h0 h1]
        exact ⟨forall_entries_mapInsert hu rfl, forall_entries_mapInsert ht rfl⟩
  | send payload nid ts =>
    show usersConsistent (send_transaction s payload nid ts).1.users ∧
      txsConsistent (send_transaction s payload nid ts).1.txs
    by_cases h0 : payload.amount < MIN_TRANSACTION_AMOUNT
    · rw [send_transaction_small s payload nid ts h0]; exact ⟨hu, ht⟩
    · cases h1 : mapGet s.users payload.from_user_id with
      | none => rw [send_transaction_noSender s payload nid ts h0 h1]; exact ⟨hu, ht⟩
      | some fromUser =>
        cases h2 : mapGet s.users payload.to_user_id with
        | none =>
          rw [send_transaction_noRecipient s payload nid ts fromUser h0 h1 h2]
          exact ⟨hu, ht⟩
        | some toUser =>
          by_cases h3 : fromUser.balance < (payload.amount : Int)
          · rw [send_transaction_insufficient s payload nid ts fromUser toUser
              h0 h1 h2 h3]
            exact ⟨hu, ht⟩
          · rw [send_transaction_ok s payload nid ts fromUser toUser h0 h1 h2 h3]
            exact ⟨forall_entries_mapInsert
                (forall_entries_mapInsert hu rfl) rfl,
              forall_entries_mapInsert ht rfl⟩
  | redeem payload nid ts =>
    show usersConsistent (redeem_points s payload nid ts).1.users ∧
      txsConsistent (redeem_points s payload nid ts).1.txs
    by_cases h0 : payload.points = 0
    · rw [redeem_points_zero s payload nid ts h0]; exact ⟨hu, ht⟩
    · cases h1 : mapGet s.users payload.user_id with
      | none => rw [redeem_points_notFound s payload nid ts h0 h1]; exact ⟨hu, ht⟩
      | some user =>
        by_cases h2 : user.points < (payload.points : Int)
        · rw [redeem_points_insufficient s payload nid ts user h0 h1 h2]
          exact ⟨hu, ht⟩
        · rw [redeem_points_ok s payload nid ts user h0 h1 h2]
          exact ⟨forall_entries_mapInsert hu rfl,
            forall_entries_mapInsert ht rfl⟩

/-- C10 witness: key-consistency is preserved across a concrete deposit on
a concrete consistent state. -/
theorem store_key_consistency_witness :
    usersConsistent (applyOp demoState
        (Op.deposit { user_id := "alice", amount := 5 } "t8" 4)).users ∧
      txsConsistent (applyOp demoState
        (Op.deposit { user_id := "alice", amount := 5 } "t8" 4)).txs :=
  store_key_consistency demoState
    (Op.deposit { user_id := "alice", amount := 5 } "t8" 4)
    (by decide) (by decide)

/-- C3: whenever any of the four mutating operations returns an error, both
the Account Store and the Ledger Store are exactly as before the call: all
validation precedes every mutation. -/
theorem error_results_leave_state_unchanged (s : State) (p1 : UserPayload)
    (p2 : DepositPayload) (p3 : TransactionPayload) (p4 : PointsPayload)
    (nid : String) (rand ts : Nat) :
    (∀ e, (create_user s p1 nid rand ts).2 = Except.error e →
      (create_user s p1 nid rand ts).1 = s) ∧
    (∀ e, (deposit_funds s p2 nid ts).2 = Except.error e →
      (deposit_funds s p2 nid ts).1 = s) ∧
    (∀ e, (send_transaction s p3 nid ts).2 = Except.error e →
      (send_transaction s p3 nid ts).1 = s) ∧
    (∀ e, (redeem_points s p4 nid ts).2 = Except.error e →
      (redeem_points s p4 nid ts).1 = s) := by
  refine ⟨?_, ?_, ?_, ?_⟩
  · intro e he
    by_cases h0 : jsTrim p1.first_name = "" ∨ jsTrim p1.last_name = ""
    · rw [create_user_names_empty s p1 nid rand ts h0]
    · cases h1 : validateEmail p1.email with
      | false => rw [create_user_bad_email s p1 nid rand ts h0 h1]
      | true =>
        cases h2 : validatePhoneNumber p1.phone_number with
        | false => rw [create_user_bad_phone s p1 nid rand ts h0 h1 h2]
        | true =>
          cases h3 : (mapValues s.users).find? (fun u => u.email == p1.email) with
          | some w => rw [create_user_duplicate s p1 nid rand ts w h0 h1 h2 h3]
          | none =>
            rw [create_user_ok s p1 nid rand ts h0 h1 h2 h3] at he
            simp at he
  · intro e he
    by_cases h0 : p2.amount < MIN_TRANSACTION_AMOUNT
    · rw [deposit_funds_small s p2 nid ts h0]
    · cases h1 : mapGet s.users p2.user_id with
      | none => rw [deposit_funds_notFound s p2 nid ts h0 h1]
      | some user =>
        rw [deposit_funds_ok s p2 nid ts user h0 h1] at he
        simp at he
  · intro e he
    by_cases h0 : p3.amount < MIN_TRANSACTION_AMOUNT
    · rw [send_transaction_small s p3 nid ts h0]
    · cases h1 : mapGet s.users p3.from_user_id with
      | none => rw [send_transaction_noSender s p3 nid ts h0 h1]
      | some fromUser =>
        cases h2 : mapGet s.users p3.to_user_id with
        | none => rw [send_transaction_noRecipient s p3 nid ts fromUser h0 h1 h2]
        | some toUser =>
          by_cases h3 : fromUser.balance < (p3.amount : Int)
          · rw [send_transaction_insufficient s p3 nid ts fromUser toUser
              h0 h1 h2 h3]
          · rw [send_transaction_ok s p3 nid ts fromUser toUser h0 h1 h2 h3] at he
            simp at he
  · intro e he
    by_cases h0 : p4.points = 0
    · rw [redeem_points_zero s p4 nid ts h0]
    · cases h1 : mapGet s.users p4.user_id with
      | none => rw [redeem_points_notFound s p4 nid ts h0 h1]
      | some user =>
        by_cases h2 : user.points < (p4.points : Int)
        · rw [redeem_points_insufficient s p4 nid ts user h0 h1 h2]
        · rw [redeem_points_ok s p4 nid ts user h0 h1 h2] at he
          simp at he

/-- C3 witness: a deposit to an unknown user errors and leaves the concrete
state untouched. -/
theorem error_results_leave_state_unchanged_witness :
    (deposit_funds demoState { user_id := "ghost", amount := 5 } "t9" 2).1 =
      demoState :=
  (error_results_leave_state_unchanged demoState
      { first_name := "", last_name := "", email := "", phone_number := "" }
      { user_id := "ghost", amount := 5 }
      { from_user_id := "alice", to_user_id := "bob", amount := 0 }
      { user_id := "alice", points := 0 } "t9" 0 2).2.1
    (Message.NotFound ("User with id " ++ "ghost" ++ " not found."))
    (by decide)

/-- C1 counterexample: a successful self-transfer (which the improved draft
does not reject) violates the claim.  At `selfState` (carol holds balance
10, points 0) the transfer of 10 from "carol" to "carol" succeeds, yet the
stored record ends with balance 20 (claim demands 10 - 10 = 0) and points 0
(claim demands 0 + 10 / 10 = 1): the second `insert` overwrites the
first. -/
theorem self_transfer_breaks_transfer_accounting :
    (∃ tx, (send_transaction selfState
        { from_user_id := "carol", to_user_id := "carol", amount := 10 }
        "t1" 5).2 = Except.ok tx) ∧
    mapGet (send_transaction selfState
        { from_user_id := "carol", to_user_id := "carol", amount := 10 }
        "t1" 5).1.users "carol" =
      some { carol with balance := 20, updated_at := 5 } ∧
    ¬ ({ carol with balance := 20, updated_at := 5 }).balance =
        carol.balance - 10 ∧
    ¬ ({ carol with balance := 20, updated_at := 5 }).points =
        carol.points + 10 / 10 :=
  ⟨⟨_, rfl⟩, by decide, by decide, by decide⟩

/-- C1 (amended): for every successful `send_transaction` whose sender and
recipient ids are distinct, the sender balance decreases by exactly
`amount`, the recipient balance increases by exactly `amount` (their sum is
unchanged), the sender points increase by exactly `amount / 10` (integer
division) and the recipient points are unchanged.  The amendment adds the
distinctness hypothesis, which the counterexample shows is necessary. -/
theorem transfer_updates_balances_and_points (s : State)
    (payload : TransactionPayload) (nid : String) (ts : Nat)
    (fromUser toUser : User) (tx : Transaction)
    (h1 : mapGet s.users payload.from_user_id = some fromUser)
    (h2 : mapGet s.users payload.to_user_id = some toUser)
    (hid1 : fromUser.id = payload.from_user_id)
    (hid2 : toUser.id = payload.to_user_id)
    (hne : payload.from_user_id ≠ payload.to_user_id)
    (hok : (send_transaction s payload nid ts).2 = Except.ok tx) :
    ∃ fromUser' toUser',
      mapGet (send_transaction s payload nid ts).1.users
          payload.from_user_id = some fromUser' ∧
      mapGet (send_transaction s payload nid ts).1.users
          payload.to_user_id = some toUser' ∧
      fromUser'.balance = fromUser.balance - (payload.amount : Int) ∧
      toUser'.balance = toUser.balance + (payload.amount : Int) ∧
      fromUser'.balance + toUser'.balance =
        fromUser.balance + toUser.balance ∧
      fromUser'.points = fromUser.points +
        ((payload.amount / POINTS_CONVERSION_RATE : Nat) : Int) ∧
      toUser'.points = toUser.points := by
  by_cases h0 : payload.amount < MIN_TRANSACTION_AMOUNT
  · rw [send_transaction_small s payload nid ts h0] at hok
    simp at hok
  · by_cases h3 : fromUser.balance < (payload.amount : Int)
    · rw [send_transaction_insufficient s payload nid ts fromUser toUser
        h0 h1 h2 h3] at hok
      simp at hok
    · have hne' : fromUser.id ≠ toUser.id := by
        rw [hid1, hid2]; exact hne
      rw [send_transaction_ok s payload nid ts fromUser toUser h0 h1 h2 h3]
      rw [← hid1, ← hid2]
      refine ⟨{ fromUser with
          balance := fromUser.balance - (payload.amount : Int)
          points := fromUser.points +
            ((payload.amount / POINTS_CONVERSION_RATE : Nat) : Int)
          updated_at := ts },
        { toUser with balance := toUser.balance + (payload.amount : Int)
                      updated_at := ts },
        ?_, ?_, rfl, rfl, by ring, rfl, rfl⟩
      · rw [mapGet_mapInsert_ne _ _ _ _ hne']
        exact mapGet_mapInsert_self _ _ _
      · exact mapGet_mapInsert_self _ _ _

/-- C1 witness: the amended theorem applied to a concrete transfer of 30
from alice (balance 100, points 7) to bob (balance 30, points 2). -/
theorem transfer_updates_balances_and_points_witness :
    ∃ fromUser' toUser',
      mapGet (send_transaction demoState
          { from_user_id := "alice", to_user_id := "bob", amount := 30 }
          "t2" 6).1.users "alice" = some fromUser' ∧
      mapGet (send_transaction demoState
          { from_user_id := "alice", to_user_id := "bob", amount := 30 }
          "t2" 6).1.users "bob" = some toUser' ∧
      fromUser'.balance = alice.balance - ((30 : Nat) : Int) ∧
      toUser'.balance = bob.balance + ((30 : Nat) : Int) ∧
      fromUser'.balance + toUser'.balance = alice.balance + bob.balance ∧
      fromUser'.points = alice.points +
        (((30 : Nat) / POINTS_CONVERSION_RATE : Nat) : Int) ∧
      toUser'.points = bob.points :=
  transfer_updates_balances_and_points demoState
    { from_user_id := "alice", to_user_id := "bob", amount := 30 } "t2" 6
    alice bob
    { id := "t2", from_user_id := "alice", to_user_id := "bob", amount := 30,
      transaction_type := "TRANSFER", status := "COMPLETED",
      points_earned := 3, created_at := 6 }
    (by decide) (by decide) rfl rfl (by decide) (by decide)

/-- C4 counterexample: the improved draft performs no self-transfer check:
at `daveState` (dave holds balance 50) the transfer of 20 from "dave" to
"dave" succeeds — no ValidationError — and the stored balance changes from
50 to 70. -/
theorem self_transfer_accepted_by_v2 :
    (∃ tx, (send_transaction daveState
        { from_user_id := "dave", to_user_id := "dave", amount := 20 }
        "t3" 8).2 = Except.ok tx) ∧
    mapGet (send_transaction daveState
        { from_user_id := "dave", to_user_id := "dave", amount := 20 }
        "t3" 8).1.users "dave" =
      some { dave with balance := 70, updated_at := 8 } ∧
    ¬ ({ dave with balance := 70, updated_at := 8 }).balance = dave.balance :=
  ⟨⟨_, rfl⟩, by decide, by decide⟩

end V2

namespace P0

/-- C4 (amended): in the `part_000` draft — the only draft that checks for
self-transfers — a transfer request whose sender equals its recipient, for
an existing user and a non-zero amount, fails with `InvalidPayload` (that
draft's validation-error variant) and the state is returned unchanged; the
improved draft in `index.ts` performs no such check and accepts
self-transfers. -/
theorem self_transfer_rejected (s : State) (payload : TransactionPayload)
    (nid : String) (ts : Nat) (u : User)
    (h0 : payload.amount ≠ 0)
    (h1 : mapGet s.users payload.from_user_id = some u)
    (heq : payload.from_user_id = payload.to_user_id) :
    send_transaction s payload nid ts =
      (s, Except.error (Message.InvalidPayload
        "Sender and recipient cannot be the same.")) := by
  have h2 : mapGet s.users payload.to_user_id = some u := by
    rw [← heq]; exact h1
  simp [send_transaction, h0, h1, h2, heq]

/-- C4 witness: the amended theorem applied to a concrete self-transfer of
5 by the part_000 user erin. -/
theorem self_transfer_rejected_witness :
    send_transaction p0State
        { from_user_id := "erin", to_user_id := "erin", amount := 5 }
        "t4" 2 =
      (p0State, Except.error (Message.InvalidPayload
        "Sender and recipient cannot be the same.")) :=
  self_transfer_rejected p0State
    { from_user_id := "erin", to_user_id := "erin", amount := 5 } "t4" 2 erin
    (by decide) (by decide) rfl

end P0

namespace V2

/-- C5: a registration request that passes all field and shape checks but
whose email equals the stored email of an already-registered User fails
with `DuplicateEmail` and stores no new User (the state is returned
unchanged). -/
theorem duplicate_email_rejected (s : State) (payload : UserPayload)
    (nid : String) (rand ts : Nat) (w : User)
    (h0 : ¬ (jsTrim payload.first_name = "" ∨ jsTrim payload.last_name = ""))
    (h1 : validateEmail payload.email = true)
    (h2 : validatePhoneNumber payload.phone_number = true)
    (hw : w ∈ mapValues s.users) (hemail : w.email = payload.email) :
    create_user s payload nid rand ts =
      (s, Except.error (Message.DuplicateEmail "Email already exists.")) := by
  obtain ⟨v, hv⟩ : ∃ v, (mapValues s.users).find?
      (fun u => u.email == payload.email) = some v := by
    have hsome : ((mapValues s.users).find?
        (fun u => u.email == payload.email)).isSome :=
      List.find?_isSome.mpr ⟨w, hw, by simp [hemail]⟩
    exact Option.isSome_iff_exists.mp hsome
  exact create_user_duplicate s payload nid rand ts v h0 h1 h2 hv

/-- C5 witness: registering a new name with alice's stored email is
rejected with DuplicateEmail and the concrete state is unchanged. -/
theorem duplicate_email_rejected_witness :
    create_user demoState
        { first_name := "Anna", last_name := "Lee",
          email := "alice@example.com", phone_number := "+12025550129" }
        "x1" 0 3 =
      (demoState,
        Except.error (Message.DuplicateEmail "Email already exists.")) :=
  duplicate_email_rejected demoState
    { first_name := "Anna", last_name := "Lee",
      email := "alice@example.com", phone_number := "+12025550129" }
    "x1" 0 3 alice (by decide) (by decide) (by decide) (by decide) rfl

/-- C6: a successful deposit synthesizes exactly one new Transaction with
`from_user_id = "SYSTEM"`, `to_user_id = user_id`,
`transaction_type = "DEPOSIT"` and `points_earned = 0`, persists it in
the Ledger Store under its fresh id (every other ledger entry unchanged,
length up by one) and returns exactly that Transaction. -/
theorem deposit_persists_single_transaction (s : State)
    (payload : DepositPayload) (nid : String) (ts : Nat) (user : User)
    (h0 : MIN_TRANSACTION_AMOUNT ≤ payload.amount)
    (h1 : mapGet s.users payload.user_id = some user)
    (hfresh : mapGet s.txs nid = none) :
    ∃ tx : Transaction,
      (deposit_funds s payload nid ts).2 = Except.ok tx ∧
      tx.from_user_id = "SYSTEM" ∧
      tx.to_user_id = payload.user_id ∧
      tx.transaction_type = "DEPOSIT" ∧
      tx.points_earned = 0 ∧
      tx.amount = payload.amount ∧
      (deposit_funds s payload nid ts).1.txs = mapInsert s.txs nid tx ∧
      mapGet (deposit_funds s payload nid ts).1.txs nid = some tx ∧
      (deposit_funds s payload nid ts).1.txs.length = s.txs.length + 1 ∧
      (∀ k, k ≠ nid →
        mapGet (deposit_funds s payload nid ts).1.txs k = mapGet s.txs k) := by
  have h0' : ¬ payload.amount < MIN_TRANSACTION_AMOUNT := not_lt.mpr h0
  rw [deposit_funds_ok s payload nid ts user h0' h1]
  exact ⟨_, rfl, rfl, rfl, rfl, rfl, rfl, rfl, mapGet_mapInsert_self _ _ _,
    length_mapInsert_of_mapGet_none _ _ _ hfresh,
    fun k hk => mapGet_mapInsert_ne _ _ _ _ hk⟩

/-- C6 witness: a concrete deposit of 50 to alice persists and returns one
DEPOSIT transaction from SYSTEM. -/
theorem deposit_persists_single_transaction_witness :
    ∃ tx : Transaction,
      (deposit_funds demoState { user_id := "alice", amount := 50 }
          "t5" 4).2 = Except.ok tx ∧
      tx.from_user_id = "SYSTEM" ∧
      tx.to_user_id = "alice" ∧
      tx.transaction_type = "DEPOSIT" ∧
      tx.points_earned = 0 ∧
      tx.amount = 50 ∧
      (deposit_funds demoState { user_id := "alice", amount := 50 }
          "t5" 4).1.txs = mapInsert demoState.txs "t5" tx ∧
      mapGet (deposit_funds demoState { user_id := "alice", amount := 50 }
          "t5" 4).1.txs "t5" = some tx ∧
      (deposit_funds demoState { user_id := "alice", amount := 50 }
          "t5" 4).1.txs.length = demoState.txs.length + 1 ∧
      (∀ k, k ≠ "t5" →
        mapGet (deposit_funds demoState { user_id := "alice", amount := 50 }
            "t5" 4).1.txs k = mapGet demoState.txs k) :=
  deposit_persists_single_transaction demoState
    { user_id := "alice", amount := 50 } "t5" 4 alice
    (by decide) (by decide) rfl

/-- C8: for `redeem_points` on an existing user: requesting zero points
fails with ValidationError; requesting more points than held fails with
InsufficientPoints; otherwise the call succeeds and debits exactly the
requested points, so redeeming exactly the held amount leaves zero
points. -/
theorem redeem_points_spec (s : State) (payload : PointsPayload)
    (nid : String) (ts : Nat) (user : User)
    (h1 : mapGet s.users payload.user_id = some user)
    (hid : user.id = payload.user_id) :
    (payload.points = 0 →
      redeem_points s payload nid ts =
        (s, Except.error (Message.ValidationError
          "Points must be greater than 0."))) ∧
    (payload.points ≠ 0 → user.points < (payload.points : Int) →
      redeem_points s payload nid ts =
        (s, Except.error (Message.InsufficientPoints
          "Insufficient points balance."))) ∧
    (payload.points ≠ 0 → ¬ user.points < (payload.points : Int) →
      ∃ tx u',
        (redeem_points s payload nid ts).2 = Except.ok tx ∧
        mapGet (redeem_points s payload nid ts).1.users payload.user_id =
          some u' ∧
        u'.points = user.points - (payload.points : Int) ∧
        (user.points = (payload.points : Int) → u'.points = 0)) := by
  refine ⟨?_, ?_, ?_⟩
  · intro h0
    exact redeem_points_zero s payload nid ts h0
  · intro h0 h2
    exact redeem_points_insufficient s payload nid ts user h0 h1 h2
  · intro h0 h2
    rw [redeem_points_ok s payload nid ts user h0 h1 h2]
    refine ⟨_, { user with
        points := user.points - (payload.points : Int)
        updated_at := ts }, rfl, ?_, rfl, ?_⟩
    · rw [← hid]
      exact mapGet_mapInsert_self _ _ _
    · intro hEq
      show user.points - (payload.points : Int) = 0
      omega

/-- C8 witness: alice holds 7 points; redeeming exactly 7 succeeds and
leaves her with 0 points. -/
theorem redeem_points_spec_witness :
    ∃ tx u',
      (redeem_points demoState { user_id := "alice", points := 7 }
          "t6" 9).2 = Except.ok tx ∧
      mapGet (redeem_points demoState { user_id := "alice", points := 7 }
          "t6" 9).1.users "alice" = some u' ∧
      u'.points = alice.points - ((7 : Nat) : Int) ∧
      (alice.points = ((7 : Nat) : Int) → u'.points = 0) :=
  (redeem_points_spec demoState { user_id := "alice", points := 7 } "t6" 9
      alice (by decide) rfl).2.2 (by decide) (by decide)

/-- C9: the code performs no overflow check.  Depositing 1 to a user whose
balance is the nat64 maximum (2^64 - 1) succeeds — no SystemError is
returned — and stores balance 2^64, outside the representable nat64 range:
the JavaScript bigint accrual neither fails nor wraps, and the declared
SystemError variant is never produced. -/
theorem deposit_overflow_unchecked :
    (deposit_funds maxState { user_id := "max", amount := 1 } "t7" 2).2 =
      Except.ok
        { id := "t7", from_user_id := "SYSTEM", to_user_id := "max",
          amount := 1, transaction_type := "DEPOSIT", status := "COMPLETED",
          points_earned := 0, created_at := 2 } ∧
    mapGet (deposit_funds maxState { user_id := "max", amount := 1 }
        "t7" 2).1.users "max" =
      some { maxUser with balance := 18446744073709551616, updated_at := 2 } ∧
    ¬ ({ maxUser with balance := 18446744073709551616, updated_at := 2 }
        ).balance ≤ 18446744073709551615 :=
  ⟨rfl, by decide, by decide⟩

end V2

namespace V2

/-- C7 counterexample: with a single ledger transaction involving user "u"
(the filtered pre-pagination set is non-empty), `skip = 1`, `limit = 1`
produce an empty page and the code returns NotFound, whereas the claim
demands the empty sequence (and NotFound only for an empty pre-pagination
set). -/
theorem history_notFound_on_skip_overshoot :
    ((mapValues histState.txs).filter (txOfUser "u")) ≠ [] ∧
    get_transaction_history histState "u" 1 1 =
      Except.error (Message.NotFound "No transactions found.") :=
  ⟨by decide, by decide⟩

/-- C7 (amended): `get_transaction_history` filters the ledger to the
transactions with `from_user_id` or `to_user_id` equal to `user_id`, sorts
them by `created_at` descending, windows them by `skip` then `limit`, and
fails with NotFound exactly when the resulting post-pagination page is
empty — in particular also when the filtered set is non-empty but `skip`
exceeds its size; a non-empty page is returned as is: sorted descending,
at most `limit` long, containing only transactions of `user_id`, drawn
from the sorted permutation of the filtered ledger. -/
theorem transaction_history_spec (s : State) (user_id : String)
    (skip limit : Nat) :
    (get_transaction_history s user_id skip limit =
        Except.error (Message.NotFound "No transactions found.") ↔
      historyWindow s user_id skip limit = []) ∧
    (historyWindow s user_id skip limit ≠ [] →
      get_transaction_history s user_id skip limit =
        Except.ok (historyWindow s user_id skip limit)) ∧
    List.Sorted createdDesc (historyWindow s user_id skip limit) ∧
    (∀ tx ∈ historyWindow s user_id skip limit, txOfUser user_id tx = true) ∧
    (historyWindow s user_id skip limit).length ≤ limit ∧
    List.Perm
      (List.insertionSort createdDesc
        ((mapValues s.txs).filter (txOfUser user_id)))
      ((mapValues s.txs).filter (txOfUser user_id)) := by
  have hdef : get_transaction_history s user_id skip limit =
      if (historyWindow s user_id skip limit).length = 0 then
        Except.error (Message.NotFound "No transactions found.")
      else Except.ok (historyWindow s user_id skip limit) := rfl
  have hsub : List.Sublist (historyWindow s user_id skip limit)
      (List.insertionSort createdDesc
        ((mapValues s.txs).filter (txOfUser user_id))) :=
    (List.take_sublist _ _).trans (List.drop_sublist _ _)
  refine ⟨?_, ?_, ?_, ?_, ?_, ?_⟩
  · constructor
    · intro h
      by_cases hl : (historyWindow s user_id skip limit).length = 0
      · exact List.length_eq_zero.mp hl
      · rw [hdef, if_neg hl] at h
        exact absurd h (by simp)
    · intro h
      rw [hdef, if_pos (by simp [h])]
  · intro hne
    rw [hdef, if_neg (by simpa [List.length_eq_zero] using hne)]
  · exact List.Pairwise.sublist hsub (List.sorted_insertionSort _ _)
  · intro tx htx
    have h1 := hsub.subset htx
    have h2 := (List.perm_insertionSort createdDesc _).subset h1
    exact List.of_mem_filter h2
  · exact List.length_take_le _ _
  · exact List.perm_insertionSort createdDesc _

/-- C7 witness: at `histState` the history page for user "u" with skip 0
and limit 10 is non-empty, so the amended theorem yields the page
`[hTx]`. -/
theorem transaction_history_spec_witness :
    get_transaction_history histState "u" 0 10 = Except.ok [hTx] := by
  have h := (transaction_history_spec histState "u" 0 10).2.1 (by decide)
  have hw : historyWindow histState "u" 0 10 = [hTx] := by decide
  rw [hw] at h
  exact h

end V2
